import Mathlib

/-!
Verification of the inspection scoring and verdict module and the role-gated
access-control model of the `vehicle_check` front end.

The definitions below are a shallow embedding of the JavaScript source:

* `InspectorInspectionsPage` (scoring session state, `handleStartInspection`,
  `handleScoreChange`, `calculateTotalScore`, `hasFailingItem`, `isPassed`,
  `handleSubmit`);
* `ProtectedRoute.jsx` (authentication / role gate) and the route table of
  `App.jsx`.

Item scores are JavaScript numbers holding small integers, embedded as `Int`.
A raw text input is embedded by the result of JavaScript `parseInt`: `some n`
when the text parses to the integer `n`, `none` when `parseInt` returns `NaN`
(non-numeric input).
-/

namespace VehicleCheck

/-- Embeds the JavaScript expression `parseInt(value) || 0` of
`handleScoreChange`: a `NaN` parse (non-numeric input) is coerced to `0`,
and `0 || 0` is also `0`, so the expression maps `some n` to `n` and
`none` to `0`. -/
def parseIntOr0 : Option Int → Int
  | none => 0
  | some n => n

/-- Embeds `Math.max(0, Math.min(10, numValue))` from `handleScoreChange`. -/
def clampScore (n : Int) : Int := max 0 (min 10 n)

/-- Embeds the score-array update of `handleScoreChange(index, value)`:
`newScores[index] = Math.max(0, Math.min(10, parseInt(value) || 0))`.
The indices used by the page are the positions `0..7` of the eight rendered
check items, so an in-range `List.set` is the faithful embedding. -/
def handleScoreChange (scores : List Int) (index : Nat) (raw : Option Int) :
    List Int :=
  scores.set index (clampScore (parseIntOr0 raw))

/-- Embeds the initial `useState(Array(8).fill(0))` of `itemScores`, which is
also the value `handleStartInspection` resets the scores to. -/
def initialItemScores : List Int := List.replicate 8 0

/-- Embeds `calculateTotalScore()`:
`itemScores.reduce((sum, score) => sum + score, 0)`. -/
def calculateTotalScore (scores : List Int) : Int :=
  scores.foldl (fun sum score => sum + score) 0

/-- Embeds `hasFailingItem()`: `itemScores.some(score => score < 5)`. -/
def hasFailingItem (scores : List Int) : Bool :=
  scores.any (fun score => score < 5)

/-- Embeds `isPassed()`: `total >= 40 && !hasFailingItem()` where
`total = calculateTotalScore()`. -/
def isPassed (scores : List Int) : Bool :=
  decide (40 ≤ calculateTotalScore scores) && !hasFailingItem scores

theorem calculateTotalScore_eq_sum (scores : List Int) :
    calculateTotalScore scores = scores.sum := by
  have h : ∀ (l : List Int) (a : Int),
      l.foldl (fun sum score => sum + score) a = a + l.sum := by
    intro l
    induction l with
    | nil => intro a; simp
    | cons x xs ih =>
      intro a
      simp only [List.foldl_cons, List.sum_cons, ih]
      ring
  simpa [calculateTotalScore] using h scores 0

theorem hasFailingItem_iff (scores : List Int) :
    hasFailingItem scores = true ↔ ∃ x ∈ scores, x < 5 := by
  simp [hasFailingItem, List.any_eq_true]

theorem isPassed_iff (scores : List Int) :
    isPassed scores = true ↔
      40 ≤ calculateTotalScore scores ∧ hasFailingItem scores = false := by
  simp [isPassed, Bool.and_eq_true, decide_eq_true_eq, Bool.not_eq_true']

/-- Claim C1: `isPassed()` returns true iff `totalScore() >= 40` and there is
no failing item, where `hasFailingItem()` holds iff some item score is below
5; the vector of seven 10s and one 4 (total 74) fails, and the all-5 vector
(total 40) passes. -/
theorem C1_isPassed_characterization :
    (∀ scores : List Int,
        (isPassed scores = true ↔
          40 ≤ calculateTotalScore scores ∧ hasFailingItem scores = false) ∧
        (hasFailingItem scores = true ↔ ∃ x ∈ scores, x < 5)) ∧
    calculateTotalScore [10, 10, 10, 10, 10, 10, 10, 4] = 74 ∧
    isPassed [10, 10, 10, 10, 10, 10, 10, 4] = false ∧
    calculateTotalScore [5, 5, 5, 5, 5, 5, 5, 5] = 40 ∧
    isPassed [5, 5, 5, 5, 5, 5, 5, 5] = true := by
  refine ⟨fun scores => ⟨isPassed_iff scores, hasFailingItem_iff scores⟩,
    ?_, ?_, ?_, ?_⟩ <;> decide

theorem clampScore_nonneg (n : Int) : 0 ≤ clampScore n := le_max_left 0 _

theorem clampScore_le_ten (n : Int) : clampScore n ≤ 10 :=
  max_le (by norm_num) (min_le_left 10 n)

/-- Claim C2: for every in-range index and every raw input, `handleScoreChange`
stores a score in `[0,10]`: parses below 0 are stored as 0, parses above 10 as
10, and a non-numeric parse as 0. -/
theorem C2_handleScoreChange_clamps (scores : List Int) (i : Nat)
    (raw : Option Int) (h : i < scores.length) :
    0 ≤ (handleScoreChange scores i raw).get
        ⟨i, by simpa [handleScoreChange] using h⟩ ∧
    (handleScoreChange scores i raw).get
        ⟨i, by simpa [handleScoreChange] using h⟩ ≤ 10 ∧
    (parseIntOr0 raw < 0 →
      (handleScoreChange scores i raw).get
        ⟨i, by simpa [handleScoreChange] using h⟩ = 0) ∧
    (10 < parseIntOr0 raw →
      (handleScoreChange scores i raw).get
        ⟨i, by simpa [handleScoreChange] using h⟩ = 10) ∧
    (raw = none →
      (handleScoreChange scores i raw).get
        ⟨i, by simpa [handleScoreChange] using h⟩ = 0) := by
  have hget : (handleScoreChange scores i raw).get
      ⟨i, by simpa [handleScoreChange] using h⟩
      = clampScore (parseIntOr0 raw) := by
    simp [handleScoreChange, List.getElem_set_self]
  refine ⟨?_, ?_, ?_, ?_, ?_⟩
  · rw [hget]; exact clampScore_nonneg _
  · rw [hget]; exact clampScore_le_ten _
  · intro hneg
    rw [hget]
    simp only [clampScore]
    omega
  · intro hbig
    rw [hget]
    simp only [clampScore]
    omega
  · intro hnone
    subst hnone
    rw [hget]
    decide

/-- Witness for C2 at a concrete input: index 2 of an in-range list, with a
raw parse of -5 stored as 0. -/
theorem C2_witness :
    (2 : Nat) < ([1, 2, 3] : List Int).length ∧
    (handleScoreChange [1, 2, 3] 2 (some (-5))).get ⟨2, by decide⟩ = 0 :=
  ⟨by decide,
    ((C2_handleScoreChange_clamps [1, 2, 3] 2 (some (-5))
      (by decide)).2.2.1 (by decide))⟩

/-- The component state of `InspectorInspectionsPage` relevant to a scoring
session: the `useState` hooks `selectedAppointment`, `itemScores`,
`observation`, `formError` and `isOpen` (appointments list, loading flags and
the check-item catalog play no role in the claims). An appointment is embedded
by its id. -/
structure SessionState where
  selectedAppointment : Option Nat
  itemScores : List Int
  observation : String
  formError : String
  isOpen : Bool
  deriving Repr, DecidableEq

/-- Embeds `handleStartInspection(appointment)`: selects the appointment,
resets the eight scores to 0, clears the observation and form error, and opens
the modal. -/
def handleStartInspection (st : SessionState) (appointment : Nat) :
    SessionState :=
  { st with
    selectedAppointment := some appointment
    itemScores := List.replicate 8 0
    observation := ""
    formError := ""
    isOpen := true }

/-- The request body `resultData` built by `handleSubmit`:
`{ total_score, item_scores, owner_observation: observation.trim() || undefined }`.
`owner_observation` is `undefined` (omitted) exactly when the trimmed
observation is the empty string, which is falsy in JavaScript. -/
structure SubmitRequest where
  total_score : Int
  item_scores : List Int
  owner_observation : Option String
  deriving Repr, DecidableEq

/-- Embeds JavaScript `observation.trim()`: removes the whitespace at both
ends of the string. -/
def jsTrim (s : String) : String :=
  String.mk
    (((s.data.dropWhile Char.isWhitespace).reverse.dropWhile
      Char.isWhitespace).reverse)

/-- Embeds the construction of `resultData` in `handleSubmit`. -/
def buildResultData (scores : List Int) (observation : String) :
    SubmitRequest :=
  { total_score := calculateTotalScore scores
    item_scores := scores
    owner_observation :=
      if jsTrim observation = "" then none else some (jsTrim observation) }

/-- The error taxonomy of the submission flow: the two local validation
failures of `handleSubmit` and the remote rejection surfaced from
`completeAppointment` (carrying the message produced by
`getApiErrorMessage`). -/
inductive SubmitError where
  | emptySubmission
  | scoreOverflow
  | submissionRejected (msg : String)
  deriving Repr, DecidableEq

/-- The observable outcome of one `handleSubmit` run: the resulting component
state, the request sent to `completeAppointment` (`none` when no network call
was made), and the error reported, if any. -/
structure SubmitResult where
  state : SessionState
  sent : Option SubmitRequest
  error : Option SubmitError
  deriving Repr, DecidableEq

/-- Embeds `handleSubmit()`. The network is embedded by its response
`netResponse`: `Except.ok ()` when `completeAppointment` resolves,
`Except.error msg` when it rejects, where `msg` stands for
`getApiErrorMessage(err)` (the external error formatter). The
`setFormError('')` at entry is observable only in the success branch, since
every other exit overwrites the form error; `setFormLoading` toggles back to
`false` on every path and is omitted. On success the code also closes the
modal (`setIsOpen(false)`) and reloads the appointment list. -/
def handleSubmit (st : SessionState) (netResponse : Except String Unit) :
    SubmitResult :=
  let totalScore := calculateTotalScore st.itemScores
  if totalScore = 0 then
    { state := { st with formError := "Debe asignar puntajes a los ítems de chequeo" }
      sent := none
      error := some .emptySubmission }
  else if 80 < totalScore then
    { state := { st with formError := "El puntaje total no puede exceder 80" }
      sent := none
      error := some .scoreOverflow }
  else
    let resultData := buildResultData st.itemScores st.observation
    match netResponse with
    | .ok _ =>
        { state := { st with formError := "", isOpen := false }
          sent := some resultData
          error := none }
    | .error msg =>
        { state := { st with formError := msg }
          sent := some resultData
          error := some (.submissionRejected msg) }

/-- A concrete session used by the closed witnesses below. -/
def sampleSession : SessionState :=
  { selectedAppointment := some 1
    itemScores := List.replicate 8 0
    observation := ""
    formError := ""
    isOpen := true }

/-- Claim C3: the score sequence always has exactly 8 entries: the initial
state and the reset done by `handleStartInspection` hold 8 zeros (total 0),
and `handleScoreChange` preserves the length 8. -/
theorem C3_eight_scores :
    (initialItemScores.length = 8 ∧ calculateTotalScore initialItemScores = 0) ∧
    (∀ (st : SessionState) (appointment : Nat),
        (handleStartInspection st appointment).itemScores.length = 8 ∧
        calculateTotalScore (handleStartInspection st appointment).itemScores = 0) ∧
    (∀ (scores : List Int) (i : Nat) (raw : Option Int),
        scores.length = 8 → (handleScoreChange scores i raw).length = 8) := by
  refine ⟨⟨by decide, by decide⟩, fun st appointment => ⟨?_, ?_⟩,
    fun scores i raw h => ?_⟩
  · simp [handleStartInspection]
  · simp [handleStartInspection]
    decide
  · simpa [handleScoreChange] using h

/-- Witness for C3 at a concrete input: setting score 15 at index 3 of the
fresh 8-score sequence keeps the length at 8. -/
theorem C3_witness :
    initialItemScores.length = 8 ∧
    (handleScoreChange initialItemScores 3 (some 15)).length = 8 :=
  ⟨by decide,
    C3_eight_scores.2.2 initialItemScores 3 (some 15) (by decide)⟩

/-- Claim C4: when `totalScore()` is 0, `handleSubmit` fails with the
empty-submission error before any network call: nothing is sent to
`completeAppointment` and the item scores are unchanged. -/
theorem C4_empty_submission (st : SessionState)
    (netResponse : Except String Unit)
    (h : calculateTotalScore st.itemScores = 0) :
    (handleSubmit st netResponse).error = some .emptySubmission ∧
    (handleSubmit st netResponse).sent = none ∧
    (handleSubmit st netResponse).state.itemScores = st.itemScores := by
  simp [handleSubmit, h]

/-- Witness for C4 at a concrete input: the fresh session with all-zero
scores. -/
theorem C4_witness :
    calculateTotalScore sampleSession.itemScores = 0 ∧
    (handleSubmit sampleSession (.ok ())).error = some .emptySubmission ∧
    (handleSubmit sampleSession (.ok ())).sent = none ∧
    (handleSubmit sampleSession (.ok ())).state.itemScores
      = sampleSession.itemScores :=
  ⟨by decide, C4_empty_submission sampleSession (.ok ()) (by decide)⟩

/-- Score sequences reachable in a session: the fresh all-zero sequence (set
by the initial state and by `handleStartInspection`), closed under
`handleScoreChange`. -/
inductive ScoresReachable : List Int → Prop where
  | start : ScoresReachable initialItemScores
  | step (scores : List Int) (i : Nat) (raw : Option Int) :
      ScoresReachable scores → ScoresReachable (handleScoreChange scores i raw)

theorem scoresReachable_invariant (scores : List Int)
    (h : ScoresReachable scores) :
    scores.length = 8 ∧ ∀ x ∈ scores, 0 ≤ x ∧ x ≤ 10 := by
  induction h with
  | start =>
    refine ⟨by decide, fun x hx => ?_⟩
    rw [List.eq_of_mem_replicate hx]
    exact ⟨le_refl 0, by norm_num⟩
  | step scores i raw _ ih =>
    refine ⟨by simpa [handleScoreChange] using ih.1, fun x hx => ?_⟩
    rcases List.mem_or_eq_of_mem_set hx with hmem | heq
    · exact ih.2 x hmem
    · rw [heq]
      exact ⟨clampScore_nonneg _, clampScore_le_ten _⟩

theorem sum_le_of_forall_le (l : List Int) (h : ∀ x ∈ l, x ≤ 10) :
    l.sum ≤ 10 * l.length := by
  induction l with
  | nil => simp
  | cons x xs ih =>
    have hx := h x (List.mem_cons_self x xs)
    have hxs := ih fun y hy => h y (List.mem_cons_of_mem x hy)
    simp only [List.sum_cons, List.length_cons]
    push_cast
    linarith

/-- Claim C5: from a fresh session, any sequence of `handleScoreChange`
operations keeps `totalScore()` at most 80, so the overflow branch
(`totalScore > 80`) of `handleSubmit` can never be taken. -/
theorem C5_no_score_overflow (scores : List Int)
    (h : ScoresReachable scores) :
    calculateTotalScore scores ≤ 80 ∧
    ∀ (st : SessionState) (netResponse : Except String Unit),
      st.itemScores = scores →
      (handleSubmit st netResponse).error ≠ some .scoreOverflow := by
  obtain ⟨hlen, hbound⟩ := scoresReachable_invariant scores h
  have htotal : calculateTotalScore scores ≤ 80 := by
    rw [calculateTotalScore_eq_sum]
    calc scores.sum ≤ 10 * scores.length :=
          sum_le_of_forall_le scores fun x hx => (hbound x hx).2
      _ = 80 := by rw [hlen]; norm_num
  refine ⟨htotal, fun st netResponse hst => ?_⟩
  have h80 : ¬(80 < calculateTotalScore st.itemScores) := by
    rw [hst]; omega
  by_cases h0 : calculateTotalScore st.itemScores = 0
  · simp [handleSubmit, h0]
  · cases netResponse with
    | ok u => simp [handleSubmit, h0, h80]
    | error msg => simp [handleSubmit, h0, h80]

/-- Witness for C5 at a concrete input: the fresh sequence after one score
change. -/
theorem C5_witness :
    calculateTotalScore (handleScoreChange initialItemScores 0 (some 99)) ≤ 80 ∧
    (handleSubmit
        { sampleSession with
            itemScores := handleScoreChange initialItemScores 0 (some 99) }
        (.ok ())).error ≠ some .scoreOverflow := by
  have h := C5_no_score_overflow
    (handleScoreChange initialItemScores 0 (some 99))
    (ScoresReachable.step initialItemScores 0 (some 99) ScoresReachable.start)
  exact ⟨h.1, h.2 _ (.ok ()) rfl⟩

/-- Claim C6: when local validation passes, the request sent to
`completeAppointment` carries the sum of the item scores as `total_score`,
the score sequence itself (indexed in check-item/ordinal order) as
`item_scores`, and the trimmed observation as `owner_observation`, omitted
when the trimmed string is empty. -/
theorem C6_request_body (st : SessionState)
    (netResponse : Except String Unit)
    (h0 : calculateTotalScore st.itemScores ≠ 0)
    (h80 : ¬(80 < calculateTotalScore st.itemScores)) :
    (handleSubmit st netResponse).sent =
      some { total_score := st.itemScores.sum
             item_scores := st.itemScores
             owner_observation :=
               if jsTrim st.observation = "" then none
               else some (jsTrim st.observation) } := by
  cases netResponse with
  | ok u =>
    simp [handleSubmit, h0, h80, buildResultData, ← calculateTotalScore_eq_sum]
  | error msg =>
    simp [handleSubmit, h0, h80, buildResultData, ← calculateTotalScore_eq_sum]

/-- Witness for C6 at a concrete input: a session with one nonzero score and
a padded observation. -/
theorem C6_witness :
    calculateTotalScore [7, 0, 0, 0, 0, 0, 0, 0] ≠ 0 ∧
    ¬(80 < calculateTotalScore ([7, 0, 0, 0, 0, 0, 0, 0] : List Int)) ∧
    (handleSubmit
        { sampleSession with
            itemScores := [7, 0, 0, 0, 0, 0, 0, 0]
            observation := "  ok  " }
        (.ok ())).sent =
      some { total_score := 7
             item_scores := [7, 0, 0, 0, 0, 0, 0, 0]
             owner_observation := some "ok" } := by
  refine ⟨by decide, by decide, ?_⟩
  rw [C6_request_body _ (.ok ()) (by decide) (by decide)]
  decide

/-- Claim C7: when `completeAppointment` rejects, `handleSubmit` surfaces the
formatted message as the form error and mutates nothing else: item scores,
observation, selected appointment and the open/closed state of the modal are
unchanged, so the session stays in the scoring state for a retry. -/
theorem C7_network_error_preserves_state (st : SessionState) (msg : String)
    (h0 : calculateTotalScore st.itemScores ≠ 0)
    (h80 : ¬(80 < calculateTotalScore st.itemScores)) :
    (handleSubmit st (.error msg)).state.formError = msg ∧
    (handleSubmit st (.error msg)).state.itemScores = st.itemScores ∧
    (handleSubmit st (.error msg)).state.observation = st.observation ∧
    (handleSubmit st (.error msg)).state.selectedAppointment
      = st.selectedAppointment ∧
    (handleSubmit st (.error msg)).state.isOpen = st.isOpen ∧
    (handleSubmit st (.error msg)).error
      = some (.submissionRejected msg) := by
  simp [handleSubmit, h0, h80]

/-- Witness for C7 at a concrete input: a rejected submission of a session
with one nonzero score leaves the modal open and the scores intact. -/
theorem C7_witness :
    calculateTotalScore [7, 0, 0, 0, 0, 0, 0, 0] ≠ 0 ∧
    ¬(80 < calculateTotalScore ([7, 0, 0, 0, 0, 0, 0, 0] : List Int)) ∧
    (handleSubmit
        { sampleSession with itemScores := [7, 0, 0, 0, 0, 0, 0, 0] }
        (.error "Network Error")).state.formError = "Network Error" ∧
    (handleSubmit
        { sampleSession with itemScores := [7, 0, 0, 0, 0, 0, 0, 0] }
        (.error "Network Error")).state.itemScores
      = [7, 0, 0, 0, 0, 0, 0, 0] ∧
    (handleSubmit
        { sampleSession with itemScores := [7, 0, 0, 0, 0, 0, 0, 0] }
        (.error "Network Error")).state.isOpen = true := by
  have h := C7_network_error_preserves_state
    { sampleSession with itemScores := [7, 0, 0, 0, 0, 0, 0, 0] }
    "Network Error" (by decide) (by decide)
  exact ⟨by decide, by decide, h.1, h.2.1, h.2.2.2.2.1⟩

/-- The role attached to an authenticated principal (`user.role`). -/
inductive Role where
  | CLIENT
  | INSPECTOR
  | ADMIN
  deriving Repr, DecidableEq

/-- What `ProtectedRoute` renders: the loading spinner, the
`<Navigate to="/login" replace />` redirect, the access-denied page, or the
`<Outlet />` carrying the child route. -/
inductive RenderResult where
  | spinner
  | navigateToLogin
  | accessDenied
  | outlet
  deriving Repr, DecidableEq

/-- Embeds `ProtectedRoute({ allowedRoles })` of `ProtectedRoute.jsx`: while
`loading`, the spinner; with no user, the redirect to `/login`; with a user
and an `allowedRoles` list not containing the user's role, the access-denied
page; otherwise the `<Outlet />`. An omitted `allowedRoles` prop (`undefined`,
falsy in the JavaScript guard `allowedRoles && ...`) is embedded as `none`. -/
def protectedRoute (allowedRoles : Option (List Role)) (loading : Bool)
    (user : Option Role) : RenderResult :=
  if loading then .spinner
  else
    match user with
    | none => .navigateToLogin
    | some role =>
      match allowedRoles with
      | some roles =>
          if !(roles.contains role) then .accessDenied else .outlet
      | none => .outlet

/-- How a route of `App.jsx` is guarded: a public route (rendered directly),
or a route wrapped in `ProtectedRoute`, with or without an `allowedRoles`
prop. -/
inductive RouteGuard where
  | publicRoute
  | requireAuth (allowedRoles : Option (List Role))
  deriving Repr, DecidableEq

/-- The route table of `App.jsx`: `/login` and `/register` are public; `/`
and `/profile` are wrapped in a bare `ProtectedRoute`; `/vehicles` in
`ProtectedRoute allowedRoles={['CLIENT', 'ADMIN']}`; the three `/admin/...`
routes in `ProtectedRoute allowedRoles={['ADMIN']}`. -/
def appRoutes : List (String × RouteGuard) :=
  [("/login", .publicRoute),
   ("/register", .publicRoute),
   ("/", .requireAuth none),
   ("/profile", .requireAuth none),
   ("/vehicles", .requireAuth (some [.CLIENT, .ADMIN])),
   ("/admin/clients", .requireAuth (some [.ADMIN])),
   ("/admin/inspectors", .requireAuth (some [.ADMIN])),
   ("/admin/admins", .requireAuth (some [.ADMIN]))]

/-- What a route renders for a given principal: a public route renders its
page directly; a guarded route renders whatever `ProtectedRoute` decides. -/
def renderRoute (g : RouteGuard) (loading : Bool) (user : Option Role) :
    RenderResult :=
  match g with
  | .publicRoute => .outlet
  | .requireAuth allowedRoles => protectedRoute allowedRoles loading user

/-- Claim C8: without a user, the only reachable routes are `/login` and
`/register`; every route wrapped in `ProtectedRoute` never renders its child
for a missing user and, once loading has resolved, redirects to `/login`. -/
theorem C8_unauthenticated_access (p : String) (g : RouteGuard)
    (hmem : (p, g) ∈ appRoutes) :
    (renderRoute g false none = .outlet ↔ p = "/login" ∨ p = "/register") ∧
    ∀ (allowedRoles : Option (List Role)) (loading : Bool),
      protectedRoute allowedRoles loading none ≠ .outlet ∧
      (loading = false →
        protectedRoute allowedRoles loading none = .navigateToLogin) := by
  constructor
  · simp only [appRoutes, List.mem_cons, List.not_mem_nil, or_false,
      Prod.mk.injEq] at hmem
    rcases hmem with ⟨hp, hg⟩ | ⟨hp, hg⟩ | ⟨hp, hg⟩ | ⟨hp, hg⟩ | ⟨hp, hg⟩ |
      ⟨hp, hg⟩ | ⟨hp, hg⟩ | ⟨hp, hg⟩ <;> subst hp <;> subst hg <;> decide
  · intro allowedRoles loading
    cases loading <;> simp [protectedRoute]

/-- Witness for C8 at a concrete input: the `/vehicles` route is in the
table and is not reachable without a user. -/
theorem C8_witness :
    ("/vehicles",
      RouteGuard.requireAuth (some [.CLIENT, .ADMIN])) ∈ appRoutes ∧
    (renderRoute (.requireAuth (some [.CLIENT, .ADMIN])) false none = .outlet
      ↔ ("/vehicles" : String) = "/login" ∨ ("/vehicles" : String) = "/register") ∧
    protectedRoute (some [.CLIENT, .ADMIN]) false none = .navigateToLogin := by
  have h := C8_unauthenticated_access "/vehicles"
    (.requireAuth (some [.CLIENT, .ADMIN])) (by decide)
  exact ⟨by decide, h.1, (h.2 (some [.CLIENT, .ADMIN]) false).2 rfl⟩

/-- Claim C9: a route guarded with `allowedRoles` denies every authenticated
user whose role is not listed (the child route is not rendered); the
`/vehicles` route permits only `CLIENT` and `ADMIN`, so an `INSPECTOR` is
denied vehicle management. -/
theorem C9_role_table (roles : List Role) (role : Role)
    (h : role ∉ roles) :
    protectedRoute (some roles) false (some role) = .accessDenied ∧
    ("/vehicles",
      RouteGuard.requireAuth (some [.CLIENT, .ADMIN])) ∈ appRoutes ∧
    renderRoute (.requireAuth (some [.CLIENT, .ADMIN])) false
      (some .INSPECTOR) = .accessDenied ∧
    renderRoute (.requireAuth (some [.CLIENT, .ADMIN])) false
      (some .CLIENT) = .outlet ∧
    renderRoute (.requireAuth (some [.CLIENT, .ADMIN])) false
      (some .ADMIN) = .outlet := by
  refine ⟨?_, by decide, by decide, by decide, by decide⟩
  simp [protectedRoute]
  exact h

/-- Witness for C9 at a concrete input: an `INSPECTOR` against the
`['CLIENT', 'ADMIN']` guard of `/vehicles`. -/
theorem C9_witness :
    Role.INSPECTOR ∉ ([.CLIENT, .ADMIN] : List Role) ∧
    protectedRoute (some [.CLIENT, .ADMIN]) false (some .INSPECTOR)
      = .accessDenied :=
  ⟨by decide, (C9_role_table [.CLIENT, .ADMIN] .INSPECTOR (by decide)).1⟩

theorem set_forall₂_le (l : List Int) (i : Nat) (v v' : Int) (hle : v ≤ v') :
    List.Forall₂ (· ≤ ·) (l.set i v) (l.set i v') := by
  induction l generalizing i with
  | nil => simp [List.Forall₂.nil]
  | cons x xs ih =>
    cases i with
    | zero => exact List.Forall₂.cons hle (List.forall₂_refl xs)
    | succ n => exact List.Forall₂.cons (le_refl x) (ih n)

theorem hasFailingItem_mono (l l' : List Int)
    (h : List.Forall₂ (· ≤ ·) l l') (hf : hasFailingItem l = false) :
    hasFailingItem l' = false := by
  induction h with
  | nil => simp [hasFailingItem]
  | @cons x y xs ys hxy htail ih =>
    simp only [hasFailingItem, List.any_cons, Bool.or_eq_false_iff,
      decide_eq_false_iff_not, not_lt] at hf ⊢
    exact ⟨le_trans hf.1 hxy, ih hf.2⟩

/-- Claim C10: `isPassed()` is monotone in each item score: over vectors of
8 scores in `[0,10]`, raising a single item's score from `v` to `v' ≥ v`
(both in `[0,10]`) can never turn a pass into a fail. -/
theorem C10_isPassed_monotone (scores : List Int) (i : Nat) (v v' : Int)
    (hlen : scores.length = 8) (hbounds : ∀ x ∈ scores, 0 ≤ x ∧ x ≤ 10)
    (hv0 : 0 ≤ v) (hv10 : v ≤ 10) (hv'0 : 0 ≤ v') (hv'10 : v' ≤ 10)
    (hle : v ≤ v') (hp : isPassed (scores.set i v) = true) :
    isPassed (scores.set i v') = true := by
  have hf₂ := set_forall₂_le scores i v v' hle
  rw [isPassed_iff] at hp ⊢
  obtain ⟨htotal, hfail⟩ := hp
  refine ⟨?_, hasFailingItem_mono _ _ hf₂ hfail⟩
  calc (40 : Int) ≤ calculateTotalScore (scores.set i v) := htotal
    _ ≤ calculateTotalScore (scores.set i v') := by
        rw [calculateTotalScore_eq_sum, calculateTotalScore_eq_sum]
        exact List.Forall₂.sum_le_sum hf₂

/-- Witness for C10 at a concrete input: raising item 0 of the all-5 passing
vector from 5 to 10 keeps the pass. -/
theorem C10_witness :
    isPassed ((List.replicate 8 (5 : Int)).set 0 5) = true ∧
    isPassed ((List.replicate 8 (5 : Int)).set 0 10) = true :=
  ⟨by decide,
    C10_isPassed_monotone (List.replicate 8 5) 0 5 10 (by decide)
      (fun x hx => by rw [List.eq_of_mem_replicate hx]; exact ⟨by norm_num, by norm_num⟩)
      (by norm_num) (by norm_num) (by norm_num) (by norm_num) (by norm_num)
      (by decide)⟩

end VehicleCheck
